import Mathlib

/-!
Shallow embedding of the upload workflow controller of the hex-color
detector page (`src/app/page.tsx`): file intake and validation,
content-fingerprint duplicate detection, submission to the remote
color-extraction endpoint, and the clipboard copy action.

The page's session state (`useState` fields) is modelled as `AppState`.
Each event handler becomes a pure function from the environment (the
SHA-256 digest primitive, the configured endpoint address, the network
response) and the current state to the next state together with a trace
of observable effects (toasts, state-setter calls, network requests,
clipboard writes).  A trace entry carries the scheduling delay in
milliseconds at which the effect is surfaced (`0` for immediate effects,
`2000` for the effects of the `setTimeout` callback on the duplicate
path).
-/

namespace HexDetector

/-- A user-chosen file: raw byte payload, declared media type and name.
The byte size of the file is the length of its payload. -/
structure FileData where
  bytes : List Nat
  mediaType : String
  name : String
deriving Repr, DecidableEq

/-- The `size` property of a file is the number of its bytes. -/
def FileData.size (f : FileData) : Nat := f.bytes.length

/-- The session state of the page component: the five `useState` fields
`file`, `hexColor`, `preview`, `loading`, `previousHash`. -/
structure AppState where
  file : Option FileData
  hexColor : String
  preview : String
  loading : Bool
  previousHash : String
deriving Repr, DecidableEq

/-- Observable effects emitted by the handlers. -/
inductive Event where
  | toastError (msg : String)
  | toastLoading (msg : String)
  | toastSuccess (msg : String)
  | toastDismissId
  | toastDismissAll
  | setLoading (b : Bool)
  | netPost (url : String) (field : String) (payload : List Nat)
  | clipWrite (text : String)
  | consoleError
deriving Repr, DecidableEq

/-- A trace entry: the scheduling delay in milliseconds (0 = immediate,
2000 = fired by the two-second `setTimeout`) together with the effect. -/
abbrev Trace := List (Nat × Event)

/-- The outcome of the `axios.post` call: either a response whose payload
carries the `hex_color` field, or a failure carrying the HTTP status of
`error.response` when one exists (`none` models a network-level failure
with no response). -/
inductive NetResponse where
  | success (hexColor : String)
  | failure (status : Option Nat)
deriving Repr, DecidableEq

/-- The environment of one submission attempt: the SHA-256 digest
primitive (`crypto.subtle.digest`, external to the repository), the
configured endpoint address `process.env.NEXT_PUBLIC_API_URL`, and the
network outcome the endpoint would produce if called. -/
structure Env where
  digest : List Nat → List Nat
  apiUrl : Option String
  response : NetResponse

/-- One byte rendered as lowercase hex, left-padded to width 2
(`b.toString(16).padStart(2, "0")`). -/
def byteToHexPadded (b : Nat) : String :=
  let s := String.mk (Nat.toDigits 16 b)
  if s.length < 2 then "0" ++ s else s

/-- `calculateFileHash`: digest the file's bytes with SHA-256 and render
the digest bytes as a lowercase hex string. -/
def calculateFileHash (digest : List Nat → List Nat) (f : FileData) : String :=
  String.join ((digest f.bytes).map byteToHexPadded)

/-- The media types accepted by `fileSchema`. -/
def allowedImageTypes : List String := ["image/jpeg", "image/png", "image/jpg"]

/-- `fileSchema` validation: the `instanceof File` check always passes for
a value of the file type; then the size refinement, then the media-type
refinement.  Returns the message of the first failing rule
(`validation.error.errors[0]`), or `none` on success. -/
def fileSchemaError (f : FileData) : Option String :=
  if ¬ f.size ≤ 3 * 1024 * 1024 then some "Ukuran file maksimal 3MB"
  else if ¬ f.mediaType ∈ allowedImageTypes then
    some "Hanya mendukung file berformat JPEG atau PNG"
  else none

/-- `URL.createObjectURL`: the temporary display handle derived from the
chosen file. -/
def createObjectURL (f : FileData) : String := "blob:" ++ f.name

/-- `handleFileChange`: use the first chosen file if any; validate it with
`fileSchema`, rejecting with the first error message; on success replace
the selected file, derive a new preview and clear the result color. -/
def handleFileChange (uploadedFiles : List FileData) (s : AppState) :
    AppState × Trace :=
  match uploadedFiles with
  | [] => (s, [])
  | f :: _ =>
    match fileSchemaError f with
    | some msg => (s, [(0, Event.toastError msg)])
    | none =>
      ({ s with file := some f, preview := createObjectURL f, hexColor := "" },
       [])

/-- `handleUpload`: reject when no file is selected; hash the file and
short-circuit on a repeated fingerprint (the `return` still runs the
`finally`, so `setLoading false` is emitted); otherwise set the busy
flag, show the working toast, post the file to the configured endpoint
and handle success, HTTP 413, other failures and the missing-address
exception, clearing the busy flag in `finally` on every branch. -/
def handleUpload (env : Env) (s : AppState) : AppState × Trace :=
  match s.file with
  | none => (s, [(0, Event.toastError "Silakan upload file terlebih dahulu!")])
  | some f =>
    let currentHash := calculateFileHash env.digest f
    if currentHash = s.previousHash then
      ({ s with loading := false },
       [(0, Event.toastLoading "Gambar sudah diproses sebelumnya..."),
        (2000, Event.toastDismissId),
        (2000, Event.toastSuccess "Gambar sudah diproses sebelumnya!"),
        (0, Event.setLoading false)])
    else
      match env.apiUrl with
      | none =>
        ({ s with loading := false },
         [(0, Event.setLoading true),
          (0, Event.toastLoading "Mengunggah file..."),
          (0, Event.toastDismissAll),
          (0, Event.consoleError),
          (0, Event.toastError "Gagal mengunggah file! Silakan coba lagi."),
          (0, Event.setLoading false)])
      | some url =>
        match env.response with
        | NetResponse.success hex =>
          ({ s with loading := false, hexColor := hex,
                    previousHash := currentHash },
           [(0, Event.setLoading true),
            (0, Event.toastLoading "Mengunggah file..."),
            (0, Event.netPost url "file" f.bytes),
            (0, Event.toastDismissId),
            (0, Event.toastSuccess "File berhasil diunggah!"),
            (0, Event.setLoading false)])
        | NetResponse.failure st =>
          ({ s with loading := false },
           [(0, Event.setLoading true),
            (0, Event.toastLoading "Mengunggah file..."),
            (0, Event.netPost url "file" f.bytes),
            (0, Event.toastDismissAll)]
           ++ (if st = some 413 then
                 [(0, Event.toastError
                     "File terlalu besar! Ukuran file harus di bawah 3MB.")]
               else
                 [(0, Event.consoleError),
                  (0, Event.toastError
                      "Gagal mengunggah file! Silakan coba lagi.")])
           ++ [(0, Event.setLoading false)])

/-- The upload button carries `disabled = loading`. -/
def uploadButtonDisabled (s : AppState) : Bool := s.loading

/-- A click on the upload button: a disabled button does not fire its
`onClick` handler, so the click is a no-op while the busy flag is true;
otherwise `handleUpload` runs. -/
def clickUploadButton (env : Env) (s : AppState) : AppState × Trace :=
  if uploadButtonDisabled s then (s, []) else handleUpload env s

/-- Whether the clipboard write promise resolves or rejects. -/
inductive ClipResult where
  | ok
  | err
deriving Repr, DecidableEq

/-- `copyToClipboard`: when a result color is present, write it to the
system clipboard and toast success or a distinct failure message
according to the promise outcome; no state field changes. -/
def copyToClipboard (clip : ClipResult) (s : AppState) : AppState × Trace :=
  if s.hexColor = "" then (s, [])
  else
    match clip with
    | ClipResult.ok =>
      (s, [(0, Event.clipWrite s.hexColor),
           (0, Event.toastSuccess "Kode HEX berhasil disalin!")])
    | ClipResult.err =>
      (s, [(0, Event.clipWrite s.hexColor),
           (0, Event.toastError "Gagal menyalin kode HEX.")])

/-- The toast-widget effects of a trace, in order, with their delays. -/
def toastsOf (tr : Trace) : Trace :=
  tr.filter (fun te =>
    match te.2 with
    | Event.toastError _ => true
    | Event.toastLoading _ => true
    | Event.toastSuccess _ => true
    | Event.toastDismissId => true
    | Event.toastDismissAll => true
    | _ => false)

/-- The failure-notification messages of a trace, in order. -/
def errorToastsOf (tr : Trace) : List String :=
  tr.filterMap (fun te =>
    match te.2 with
    | Event.toastError m => some m
    | _ => none)

/-- The network requests of a trace: endpoint address, form field name
and payload bytes, in order. -/
def netRequestsOf (tr : Trace) : List (String × String × List Nat) :=
  tr.filterMap (fun te =>
    match te.2 with
    | Event.netPost u field p => some (u, field, p)
    | _ => none)

/-! Concrete fixtures used by witnesses and counterexamples. -/

/-- A small valid PNG file. -/
def sampleFile : FileData :=
  { bytes := [1, 2, 3], mediaType := "image/png", name := "a.png" }

/-- A digest primitive producing the empty digest, sufficient for
exercising the control flow of `handleUpload`. -/
def emptyDigest : List Nat → List Nat := fun _ => []

/-- An environment with a configured endpoint answering successfully. -/
def envFresh : Env :=
  { digest := emptyDigest, apiUrl := some "https://api.example",
    response := NetResponse.success "#112233" }

/-- An environment with no configured endpoint address. -/
def envNoUrl : Env :=
  { digest := emptyDigest, apiUrl := none,
    response := NetResponse.failure none }

/-- An environment whose endpoint answers HTTP 413. -/
def env413 : Env :=
  { digest := emptyDigest, apiUrl := some "https://api.example",
    response := NetResponse.failure (some 413) }

/-- A state whose previous fingerprint matches the sample file's
fingerprint under `emptyDigest` (both are the empty string). -/
def sDup : AppState :=
  { file := some sampleFile, hexColor := "", preview := "", loading := false,
    previousHash := "" }

/-- An idle state holding the sample file with a stale result color and a
non-matching previous fingerprint. -/
def sFresh : AppState :=
  { file := some sampleFile, hexColor := "#000000", preview := "p",
    loading := false, previousHash := "zz" }

/-- The same state with the busy flag raised. -/
def sBusy : AppState :=
  { file := some sampleFile, hexColor := "#000000", preview := "p",
    loading := true, previousHash := "zz" }

/-- A state with no selected file. -/
def sNoFile : AppState :=
  { file := none, hexColor := "", preview := "", loading := false,
    previousHash := "" }

/-- A file one byte over the 3 MiB limit. -/
def oversizedFile : FileData :=
  { bytes := List.replicate (3 * 1024 * 1024 + 1) 0, mediaType := "image/png",
    name := "big.png" }

/-- A small file with a disallowed media type. -/
def textFile : FileData :=
  { bytes := [7], mediaType := "text/plain", name := "t.txt" }

/-- Claim C1: when the SHA-256 content fingerprint of the selected file is
bit-identical to the last-submitted fingerprint, `handleUpload` performs
no network request and the notification sequence is exactly an immediate
pending indicator followed, 2000 ms later, by the dismissal and a success
indicator. -/
theorem handleUpload_duplicate_short_circuit (env : Env) (s : AppState)
    (f : FileData)
    (hf : s.file = some f)
    (hh : calculateFileHash env.digest f = s.previousHash) :
    netRequestsOf (handleUpload env s).2 = [] ∧
    toastsOf (handleUpload env s).2 =
      [(0, Event.toastLoading "Gambar sudah diproses sebelumnya..."),
       (2000, Event.toastDismissId),
       (2000, Event.toastSuccess "Gambar sudah diproses sebelumnya!")] := by
  unfold handleUpload
  rw [hf]
  simp [hh, netRequestsOf, toastsOf]

/-- Witness for C1 at the concrete duplicate state. -/
theorem handleUpload_duplicate_short_circuit_witness :
    sDup.file = some sampleFile ∧
    calculateFileHash envFresh.digest sampleFile = sDup.previousHash ∧
    (netRequestsOf (handleUpload envFresh sDup).2 = [] ∧
     toastsOf (handleUpload envFresh sDup).2 =
       [(0, Event.toastLoading "Gambar sudah diproses sebelumnya..."),
        (2000, Event.toastDismissId),
        (2000, Event.toastSuccess "Gambar sudah diproses sebelumnya!")]) :=
  ⟨rfl, rfl, handleUpload_duplicate_short_circuit envFresh sDup sampleFile rfl rfl⟩

/-- Claim C2 counterexample: a submission attempt made while the busy
flag is true is not rejected — `handleUpload` has no busy check, so it
issues a network request, shows no rejection message and mutates state. -/
theorem busy_submission_not_rejected :
    sBusy.loading = true ∧
    netRequestsOf (handleUpload envFresh sBusy).2 ≠ [] ∧
    errorToastsOf (handleUpload envFresh sBusy).2 = [] ∧
    (handleUpload envFresh sBusy).1 ≠ sBusy := by decide

/-- Claim C2 (amended): a submission attempt with no selected file is
rejected with a user-visible message and has no other effect; attempts
while the busy flag is true are prevented at the UI layer, because the
upload button is rendered disabled while busy and a disabled button does
not fire its handler — the handler itself performs no busy check. -/
theorem submission_guards (env : Env) (s : AppState) :
    (s.loading = true → clickUploadButton env s = (s, [])) ∧
    (s.file = none →
      handleUpload env s =
        (s, [(0, Event.toastError "Silakan upload file terlebih dahulu!")])) := by
  constructor
  · intro h
    simp [clickUploadButton, uploadButtonDisabled, h]
  · intro h
    unfold handleUpload
    rw [h]

/-- Witness for the amended C2 at the busy state and the no-file state. -/
theorem submission_guards_witness :
    (sBusy.loading = true ∧ clickUploadButton envFresh sBusy = (sBusy, [])) ∧
    (sNoFile.file = none ∧
     handleUpload envFresh sNoFile =
       (sNoFile,
        [(0, Event.toastError "Silakan upload file terlebih dahulu!")])) :=
  ⟨⟨rfl, (submission_guards envFresh sBusy).1 rfl⟩,
   ⟨rfl, (submission_guards envFresh sNoFile).2 rfl⟩⟩

/-- Claim C3: on a successful response carrying a hex color, the working
toast is dismissed, a success toast shown, the result color is set from
the response field and the previous fingerprint is updated to the
fingerprint computed for this submission. -/
theorem handleUpload_success_path (env : Env) (s : AppState) (f : FileData)
    (url hex : String)
    (hf : s.file = some f)
    (hh : calculateFileHash env.digest f ≠ s.previousHash)
    (hu : env.apiUrl = some url)
    (hr : env.response = NetResponse.success hex) :
    handleUpload env s =
      ({ s with loading := false, hexColor := hex,
                previousHash := calculateFileHash env.digest f },
       [(0, Event.setLoading true),
        (0, Event.toastLoading "Mengunggah file..."),
        (0, Event.netPost url "file" f.bytes),
        (0, Event.toastDismissId),
        (0, Event.toastSuccess "File berhasil diunggah!"),
        (0, Event.setLoading false)]) := by
  unfold handleUpload
  rw [hf]
  simp [hh, hu, hr]

/-- Witness for C3 at the concrete fresh state. -/
theorem handleUpload_success_path_witness :
    calculateFileHash envFresh.digest sampleFile ≠ sFresh.previousHash ∧
    handleUpload envFresh sFresh =
      ({ sFresh with loading := false, hexColor := "#112233",
                     previousHash := calculateFileHash envFresh.digest sampleFile },
       [(0, Event.setLoading true),
        (0, Event.toastLoading "Mengunggah file..."),
        (0, Event.netPost "https://api.example" "file" sampleFile.bytes),
        (0, Event.toastDismissId),
        (0, Event.toastSuccess "File berhasil diunggah!"),
        (0, Event.setLoading false)]) :=
  ⟨by decide,
   handleUpload_success_path envFresh sFresh sampleFile "https://api.example"
     "#112233" rfl (by decide) rfl rfl⟩

/-- Claim C4: on a failed request exactly one failure toast is shown, the
oversized-file message precisely when the status is HTTP 413 and the
generic message otherwise, and neither the result color nor the previous
fingerprint changes. -/
theorem handleUpload_failure_path (env : Env) (s : AppState) (f : FileData)
    (url : String) (st : Option Nat)
    (hf : s.file = some f)
    (hh : calculateFileHash env.digest f ≠ s.previousHash)
    (hu : env.apiUrl = some url)
    (hr : env.response = NetResponse.failure st) :
    errorToastsOf (handleUpload env s).2 =
      [if st = some 413 then
         "File terlalu besar! Ukuran file harus di bawah 3MB."
       else "Gagal mengunggah file! Silakan coba lagi."] ∧
    (handleUpload env s).1.hexColor = s.hexColor ∧
    (handleUpload env s).1.previousHash = s.previousHash := by
  unfold handleUpload
  rw [hf]
  by_cases h4 : st = some 413 <;>
    simp [hh, hu, hr, h4, errorToastsOf]

/-- Witness for C4 at an HTTP 413 response. -/
theorem handleUpload_failure_path_witness :
    calculateFileHash env413.digest sampleFile ≠ sFresh.previousHash ∧
    env413.response = NetResponse.failure (some 413) ∧
    (errorToastsOf (handleUpload env413 sFresh).2 =
       [if (some 413 : Option Nat) = some 413 then
          "File terlalu besar! Ukuran file harus di bawah 3MB."
        else "Gagal mengunggah file! Silakan coba lagi."] ∧
     (handleUpload env413 sFresh).1.hexColor = sFresh.hexColor ∧
     (handleUpload env413 sFresh).1.previousHash = sFresh.previousHash) :=
  ⟨by decide, rfl,
   handleUpload_failure_path env413 sFresh sampleFile "https://api.example"
     (some 413) rfl (by decide) rfl rfl⟩

/-- Claim C5: every execution of `handleUpload` that passes the duplicate
check raises the busy flag and ends with the busy flag false, whichever
branch resolves the attempt (success, HTTP 413, other failure, or the
missing-address exception). -/
theorem handleUpload_busy_always_cleared (env : Env) (s : AppState)
    (f : FileData)
    (hf : s.file = some f)
    (hh : calculateFileHash env.digest f ≠ s.previousHash) :
    (0, Event.setLoading true) ∈ (handleUpload env s).2 ∧
    (handleUpload env s).1.loading = false := by
  unfold handleUpload
  rw [hf]
  cases hu : env.apiUrl with
  | none => simp [hh]
  | some url =>
    cases hr : env.response with
    | success hex => simp [hh]
    | failure st => by_cases h4 : st = some 413 <;> simp [hh, h4]

/-- Witness for C5 at the concrete fresh state. -/
theorem handleUpload_busy_always_cleared_witness :
    calculateFileHash envFresh.digest sampleFile ≠ sFresh.previousHash ∧
    ((0, Event.setLoading true) ∈ (handleUpload envFresh sFresh).2 ∧
     (handleUpload envFresh sFresh).1.loading = false) :=
  ⟨by decide,
   handleUpload_busy_always_cleared envFresh sFresh sampleFile rfl (by decide)⟩

/-- Claim C6: intake validation checks the size bound first and the
media-type set second, rejects with the first failing rule's distinct
message, and on any validation failure returns the prior state
unchanged (selected file, preview reference and result color included). -/
theorem handleFileChange_rejects_in_order (f : FileData)
    (rest : List FileData) (s : AppState) :
    (¬ f.size ≤ 3 * 1024 * 1024 →
      handleFileChange (f :: rest) s =
        (s, [(0, Event.toastError "Ukuran file maksimal 3MB")])) ∧
    (f.size ≤ 3 * 1024 * 1024 → ¬ f.mediaType ∈ allowedImageTypes →
      handleFileChange (f :: rest) s =
        (s, [(0, Event.toastError
                "Hanya mendukung file berformat JPEG atau PNG")])) := by
  constructor
  · intro h
    simp [handleFileChange, fileSchemaError, h]
  · intro h1 h2
    simp [handleFileChange, fileSchemaError, h1, h2]

/-- Witness for C6 at an oversized file and at a disallowed-type file. -/
theorem handleFileChange_rejects_in_order_witness :
    (¬ oversizedFile.size ≤ 3 * 1024 * 1024 ∧
     handleFileChange [oversizedFile] sNoFile =
       (sNoFile, [(0, Event.toastError "Ukuran file maksimal 3MB")])) ∧
    (textFile.size ≤ 3 * 1024 * 1024 ∧
     ¬ textFile.mediaType ∈ allowedImageTypes ∧
     handleFileChange [textFile] sNoFile =
       (sNoFile, [(0, Event.toastError
                     "Hanya mendukung file berformat JPEG atau PNG")])) :=
  ⟨⟨by norm_num [oversizedFile, FileData.size],
    (handleFileChange_rejects_in_order oversizedFile [] sNoFile).1
      (by norm_num [oversizedFile, FileData.size])⟩,
   ⟨by decide, by decide,
    (handleFileChange_rejects_in_order textFile [] sNoFile).2
      (by decide) (by decide)⟩⟩

/-- Claim C7: for a non-empty chosen-file list whose first file is within
the size bound and of an allowed media type, intake succeeds with that
first file: the selected file is replaced, a new preview reference is
derived, the result color is cleared, and no network request occurs. -/
theorem handleFileChange_accepts (f : FileData) (rest : List FileData)
    (s : AppState)
    (hsize : f.size ≤ 3 * 1024 * 1024)
    (htype : f.mediaType ∈ allowedImageTypes) :
    handleFileChange (f :: rest) s =
      ({ s with file := some f, preview := createObjectURL f, hexColor := "" },
       []) ∧
    netRequestsOf (handleFileChange (f :: rest) s).2 = [] := by
  have h : fileSchemaError f = none := by
    simp [fileSchemaError, hsize, htype]
  constructor
  · simp [handleFileChange, h]
  · simp [handleFileChange, h, netRequestsOf]

/-- Witness for C7 at the sample PNG file. -/
theorem handleFileChange_accepts_witness :
    sampleFile.size ≤ 3 * 1024 * 1024 ∧
    sampleFile.mediaType ∈ allowedImageTypes ∧
    (handleFileChange [sampleFile] sFresh =
       ({ sFresh with file := some sampleFile,
                      preview := createObjectURL sampleFile, hexColor := "" },
        []) ∧
     netRequestsOf (handleFileChange [sampleFile] sFresh).2 = []) :=
  ⟨by decide, by decide,
   handleFileChange_accepts sampleFile [] sFresh (by decide) (by decide)⟩

/-- Claim C8 counterexample: the absent endpoint address is not a
condition detected at startup before the attempt runs — the handler
first raises the busy flag and shows the working toast, and only then
hits the missing address and reports the generic failure. -/
theorem missing_api_url_not_startup_detected :
    (handleUpload envNoUrl sFresh).2.take 2 =
      [(0, Event.setLoading true),
       (0, Event.toastLoading "Mengunggah file...")] ∧
    errorToastsOf (handleUpload envNoUrl sFresh).2 =
      ["Gagal mengunggah file! Silakan coba lagi."] := by decide

/-- Claim C8 (amended): when the endpoint address is absent, the
condition is detected during the submission attempt inside the handler —
after the busy flag is set and the working toast shown, the thrown error
is caught and reported as the generic failure, and the busy flag is
cleared. -/
theorem handleUpload_missing_url (env : Env) (s : AppState) (f : FileData)
    (hf : s.file = some f)
    (hh : calculateFileHash env.digest f ≠ s.previousHash)
    (hu : env.apiUrl = none) :
    handleUpload env s =
      ({ s with loading := false },
       [(0, Event.setLoading true),
        (0, Event.toastLoading "Mengunggah file..."),
        (0, Event.toastDismissAll),
        (0, Event.consoleError),
        (0, Event.toastError "Gagal mengunggah file! Silakan coba lagi."),
        (0, Event.setLoading false)]) := by
  unfold handleUpload
  rw [hf]
  simp [hh, hu]

/-- Witness for the amended C8 at the concrete no-address environment. -/
theorem handleUpload_missing_url_witness :
    calculateFileHash envNoUrl.digest sampleFile ≠ sFresh.previousHash ∧
    envNoUrl.apiUrl = none ∧
    handleUpload envNoUrl sFresh =
      ({ sFresh with loading := false },
       [(0, Event.setLoading true),
        (0, Event.toastLoading "Mengunggah file..."),
        (0, Event.toastDismissAll),
        (0, Event.consoleError),
        (0, Event.toastError "Gagal mengunggah file! Silakan coba lagi."),
        (0, Event.setLoading false)]) :=
  ⟨by decide, rfl,
   handleUpload_missing_url envNoUrl sFresh sampleFile rfl (by decide) rfl⟩

/-- Claim C9: with a non-empty result color, the copy action writes
exactly that hex string to the clipboard, toasts confirmation on success
and a distinct failure message on clipboard failure, and leaves the
whole session state unchanged. -/
theorem copyToClipboard_copies_and_preserves_state (clip : ClipResult)
    (s : AppState)
    (h : s.hexColor ≠ "") :
    copyToClipboard clip s =
      (s, [(0, Event.clipWrite s.hexColor),
           (0, match clip with
               | ClipResult.ok =>
                 Event.toastSuccess "Kode HEX berhasil disalin!"
               | ClipResult.err =>
                 Event.toastError "Gagal menyalin kode HEX.")]) := by
  cases clip <;> simp [copyToClipboard, h]

/-- Witness for C9 at the concrete state, for both clipboard outcomes. -/
theorem copyToClipboard_copies_and_preserves_state_witness :
    sFresh.hexColor ≠ "" ∧
    copyToClipboard ClipResult.ok sFresh =
      (sFresh, [(0, Event.clipWrite sFresh.hexColor),
                (0, Event.toastSuccess "Kode HEX berhasil disalin!")]) ∧
    copyToClipboard ClipResult.err sFresh =
      (sFresh, [(0, Event.clipWrite sFresh.hexColor),
                (0, Event.toastError "Gagal menyalin kode HEX.")]) :=
  ⟨by decide,
   copyToClipboard_copies_and_preserves_state ClipResult.ok sFresh (by decide),
   copyToClipboard_copies_and_preserves_state ClipResult.err sFresh (by decide)⟩

/-- Claim C10: on the duplicate short-circuit path entered from an idle
state, the busy flag is never set to true, no network request is made
and no session state field changes. -/
theorem handleUpload_duplicate_frame (env : Env) (s : AppState) (f : FileData)
    (hf : s.file = some f)
    (hl : s.loading = false)
    (hh : calculateFileHash env.digest f = s.previousHash) :
    (handleUpload env s).1 = s ∧
    netRequestsOf (handleUpload env s).2 = [] ∧
    (0, Event.setLoading true) ∉ (handleUpload env s).2 := by
  obtain ⟨sfile, shex, sprev, sload, shash⟩ := s
  obtain rfl : sfile = some f := hf
  obtain rfl : sload = false := hl
  have hh2 : calculateFileHash env.digest f = shash := hh
  unfold handleUpload
  simp [hh2, netRequestsOf]

/-- Witness for C10 at the concrete duplicate state. -/
theorem handleUpload_duplicate_frame_witness :
    sDup.file = some sampleFile ∧
    sDup.loading = false ∧
    calculateFileHash envFresh.digest sampleFile = sDup.previousHash ∧
    ((handleUpload envFresh sDup).1 = sDup ∧
     netRequestsOf (handleUpload envFresh sDup).2 = [] ∧
     (0, Event.setLoading true) ∉ (handleUpload envFresh sDup).2) :=
  ⟨rfl, rfl, rfl,
   handleUpload_duplicate_frame envFresh sDup sampleFile rfl rfl rfl⟩

end HexDetector
